import Mathlib

/-!
The LibDS event engine (src/src/events.c).

A shallow embedding of the periodic send/receive loop of the Driver Station
library: the six engine timers, the cached protocol pointer, the running flag
and the three parser-result flags are an explicit state record; every call the
engine makes into a collaborator (packet builders, socket I/O, parsers,
NetConsole, watchdog hooks) is logged, in program order, in a list of `Call`s.
A null-pointer dereference is the result `none`.
-/

namespace LibDS

/-- The three remote peers the engine talks to. -/
inductive Peer where
  | fms
  | radio
  | robot
  deriving DecidableEq, Repr

/-- One call of events.c into a collaborator. -/
inductive Call where
  /-- `protocol->create_fms_packet()` and its radio and robot siblings -/
  | create_packet (p : Peer)
  /-- `DS_SocketSend (&protocol->fms_socket, data)` and siblings -/
  | socket_send (p : Peer)
  /-- `CFG_GetNetConsoleData()` -/
  | get_netconsole_data
  /-- `DS_SocketSend (&protocol->netconsole_socket, data)` -/
  | netconsole_send
  /-- `DS_SocketRead (&protocol->fms_socket, fms_data)` and siblings -/
  | socket_read (p : Peer)
  /-- `protocol->read_fms_packet (fms_data)` and siblings -/
  | read_packet (p : Peer)
  /-- `CFG_FMSWatchdogExpired()` and siblings -/
  | watchdog_expired (p : Peer)
  deriving DecidableEq, Repr

/-- The struct `DS_Timer` of DS_Timer.h: three C ints. -/
structure DS_Timer where
  time : Int
  expired : Int
  remaining : Int
  deriving DecidableEq, Repr

/-- Modelled from the spec: the body of `DS_TimerInit` is missing from the
sources (DS_Timer.h only declares it). Spec 4.1: "sets interval, marks not
expired, sets remaining = interval". -/
def DS_TimerInit (_timer : DS_Timer) (time : Int) : DS_Timer :=
  { time := time, expired := 0, remaining := time }

/-- Modelled from the spec: the body of `DS_TimerReset` is missing from the
sources (DS_Timer.h only declares it). Spec 4.1: "clears expired, remaining =
interval". -/
def DS_TimerReset (timer : DS_Timer) : DS_Timer :=
  { timer with expired := 0, remaining := timer.time }

/-- Modelled from the spec: the body of `DS_TimerUpdate` is missing from the
sources (DS_Timer.h only declares it, without an elapsed-time argument). Spec
4.1: "decrements remaining by elapsed; sets expired when remaining ≤ 0"; the
elapsed time is the one of the engine pass that makes the call. -/
def DS_TimerUpdate (timer : DS_Timer) (elapsed : Nat) : DS_Timer :=
  { timer with
    remaining := timer.remaining - elapsed
    expired := if timer.remaining - elapsed ≤ 0 then 1 else timer.expired }

/-- The data fields of `DS_Protocol` that events.c reads (DS_Protocol.h is not
in the sources; its callbacks and sockets show up as `Call`s). -/
structure DS_Protocol where
  fms_interval : Int
  radio_interval : Int
  robot_interval : Int
  deriving DecidableEq, Repr

/-- What the environment supplies to one pass of `run_event_loop`. -/
structure World where
  /-- the value of `DS_CurrentProtocol()`: `none` is NULL, `some a` the address `a` -/
  current : Option Nat
  /-- the `DS_Protocol` stored at an address -/
  deref : Nat → DS_Protocol
  /-- the time by which every `DS_TimerUpdate` of this pass advances its timer -/
  elapsed : Nat
  /-- the value `protocol->read_fms_packet` returns in this pass -/
  fms_packet : Int
  /-- the value `protocol->read_radio_packet` returns in this pass -/
  radio_packet : Int
  /-- the value `protocol->read_robot_packet` returns in this pass -/
  robot_packet : Int

/-- The file-scope variables of events.c. -/
structure State where
  fms_send_timer : DS_Timer
  radio_send_timer : DS_Timer
  robot_send_timer : DS_Timer
  fms_recv_timer : DS_Timer
  radio_recv_timer : DS_Timer
  robot_recv_timer : DS_Timer
  running : Int
  fms_read : Int
  radio_read : Int
  robot_read : Int
  protocol : Option Nat
  deriving DecidableEq, Repr

/-- The zero-initialised statics a process starts with. -/
def State.initial : State :=
  { fms_send_timer := ⟨0, 0, 0⟩, radio_send_timer := ⟨0, 0, 0⟩
    robot_send_timer := ⟨0, 0, 0⟩, fms_recv_timer := ⟨0, 0, 0⟩
    radio_recv_timer := ⟨0, 0, 0⟩, robot_recv_timer := ⟨0, 0, 0⟩
    running := 0, fms_read := 0, radio_read := 0, robot_read := 0, protocol := none }

/-- A 32-bit two-complement C int holding the mathematical integer `x`. -/
def c_int (x : Int) : Int := (x + 2147483648) % 4294967296 - 2147483648

/-- The send timer of a peer. -/
def State.send_timer (s : State) : Peer → DS_Timer
  | .fms => s.fms_send_timer
  | .radio => s.radio_send_timer
  | .robot => s.robot_send_timer

/-- The receive watchdog of a peer. -/
def State.recv_timer (s : State) : Peer → DS_Timer
  | .fms => s.fms_recv_timer
  | .radio => s.radio_recv_timer
  | .robot => s.robot_recv_timer

/-- The parser-result flag of a peer. -/
def State.read_flag (s : State) : Peer → Int
  | .fms => s.fms_read
  | .radio => s.radio_read
  | .robot => s.robot_read

/-- The send interval a protocol declares for a peer. -/
def DS_Protocol.interval (p : DS_Protocol) : Peer → Int
  | .fms => p.fms_interval
  | .radio => p.radio_interval
  | .robot => p.robot_interval

/-- The value the parser of a peer returns in a pass. -/
def World.packet (w : World) : Peer → Int
  | .fms => w.fms_packet
  | .radio => w.radio_packet
  | .robot => w.robot_packet

/-- The calls of `send_fms_data`. -/
def send_fms_data : List Call := [.create_packet .fms, .socket_send .fms]

/-- The calls of `send_radio_data`. -/
def send_radio_data : List Call := [.create_packet .radio, .socket_send .radio]

/-- The calls of `send_robot_data`. -/
def send_robot_data : List Call := [.create_packet .robot, .socket_send .robot]

/-- The calls of `send_netconsole_data`. -/
def send_netconsole_data : List Call := [.get_netconsole_data, .netconsole_send]

/-- The function `send_data` of events.c. -/
def send_data (s : State) (w : World) : State × List Call :=
  if s.protocol = none then (s, [])
  else
    let s1 : State :=
      { s with
        fms_send_timer := DS_TimerUpdate s.fms_send_timer w.elapsed
        radio_send_timer := DS_TimerUpdate s.radio_send_timer w.elapsed
        robot_send_timer := DS_TimerUpdate s.robot_send_timer w.elapsed }
    let r2 : State × List Call :=
      if s1.fms_send_timer.expired ≠ 0 then
        ({ s1 with fms_send_timer := DS_TimerReset s1.fms_send_timer }, send_fms_data)
      else (s1, [])
    let r3 : State × List Call :=
      if r2.1.radio_send_timer.expired ≠ 0 then
        ({ r2.1 with radio_send_timer := DS_TimerReset r2.1.radio_send_timer },
          r2.2 ++ send_radio_data)
      else r2
    let r4 : State × List Call :=
      if r3.1.robot_send_timer.expired ≠ 0 then
        ({ r3.1 with robot_send_timer := DS_TimerReset r3.1.robot_send_timer },
          r3.2 ++ send_robot_data)
      else r3
    (r4.1, r4.2 ++ send_netconsole_data)

/-- The function `recv_data` of events.c. -/
def recv_data (s : State) (w : World) : State × List Call :=
  if s.protocol = none then (s, [])
  else
    ({ s with fms_read := w.fms_packet, radio_read := w.radio_packet,
              robot_read := w.robot_packet },
      [.socket_read .fms, .socket_read .radio, .socket_read .robot,
       .read_packet .fms, .read_packet .radio, .read_packet .robot])

/-- The feeding step of `update_watchdogs`: a set flag resets its watchdog. -/
def feed_watchdogs (s : State) : State :=
  { s with
    fms_recv_timer := if s.fms_read ≠ 0 then DS_TimerReset s.fms_recv_timer else s.fms_recv_timer
    radio_recv_timer :=
      if s.radio_read ≠ 0 then DS_TimerReset s.radio_recv_timer else s.radio_recv_timer
    robot_recv_timer :=
      if s.robot_read ≠ 0 then DS_TimerReset s.robot_recv_timer else s.robot_recv_timer }

/-- The function `update_watchdogs` of events.c. -/
def update_watchdogs (s : State) (w : World) : State × List Call :=
  let s1 := feed_watchdogs s
  let s2 : State :=
    { s1 with
      fms_recv_timer := DS_TimerUpdate s1.fms_recv_timer w.elapsed
      radio_recv_timer := DS_TimerUpdate s1.radio_recv_timer w.elapsed
      robot_recv_timer := DS_TimerUpdate s1.robot_recv_timer w.elapsed }
  ({ s2 with fms_read := 0, radio_read := 0, robot_read := 0 },
    (if s2.fms_recv_timer.expired ≠ 0 then [Call.watchdog_expired .fms] else []) ++
    (if s2.radio_recv_timer.expired ≠ 0 then [Call.watchdog_expired .radio] else []) ++
    (if s2.robot_recv_timer.expired ≠ 0 then [Call.watchdog_expired .robot] else []))

/-- The function `check_protocol` of events.c; `none` is the dereference of a
null `protocol` in `protocol->fms_interval`. -/
def check_protocol (s : State) (w : World) : Option State :=
  if s.protocol ≠ w.current then
    match w.current with
    | none => none
    | some a =>
      some { s with
        protocol := some a
        fms_send_timer := { s.fms_send_timer with time := (w.deref a).fms_interval }
        radio_send_timer := { s.radio_send_timer with time := (w.deref a).radio_interval }
        robot_send_timer := { s.robot_send_timer with time := (w.deref a).robot_interval }
        fms_recv_timer :=
          { s.fms_recv_timer with time := c_int ((w.deref a).fms_interval * 50) }
        radio_recv_timer :=
          { s.radio_recv_timer with time := c_int ((w.deref a).radio_interval * 50) }
        robot_recv_timer :=
          { s.robot_recv_timer with time := c_int ((w.deref a).robot_interval * 50) } }
  else some s

/-- The function `run_event_loop` of events.c: one tick. -/
def run_event_loop (s : State) (w : World) : Option (State × List Call) :=
  match check_protocol s w with
  | none => none
  | some s1 =>
    if s1.running ≠ 0 then
      let r2 := send_data s1 w
      let r3 := recv_data r2.1 w
      let r4 := update_watchdogs r3.1 w
      some (r4.1, r2.2 ++ r3.2 ++ r4.2)
    else some (s1, [])

/-- The function `Events_Init` of events.c; `w` is the environment of the tick
it fires. -/
def Events_Init (s : State) (w : World) : Option (State × List Call) :=
  if s.running = 0 then
    run_event_loop
      { s with
        fms_send_timer := DS_TimerInit s.fms_send_timer 0
        fms_recv_timer := DS_TimerInit s.fms_recv_timer 0
        radio_send_timer := DS_TimerInit s.radio_send_timer 0
        radio_recv_timer := DS_TimerInit s.radio_recv_timer 0
        robot_send_timer := DS_TimerInit s.robot_send_timer 0
        robot_recv_timer := DS_TimerInit s.robot_recv_timer 0
        running := 1 } w
  else some (s, [])

/-- The function `Events_Close` of events.c. -/
def Events_Close (s : State) : State := { s with running := 0 }

/-- The struct `DS_Event` (DS_Events.h is not in the sources); events.c never
looks inside one, so its content is a bare number. -/
structure DS_Event where
  payload : Nat
  deriving DecidableEq, Repr

/-- The function `DS_PollEvent` of events.c, whose body is `return 0;`. It
yields the returned int and the content of `*info` afterwards. `pending` are
the events produced and not yet delivered, oldest first: the source keeps no
such storage and reads none, so the argument is ignored. -/
def DS_PollEvent (_pending : List DS_Event) (info : DS_Event) : Int × DS_Event :=
  (0, info)

/-- A run of consecutive ticks, with the calls of all of them in order. -/
def run_ticks (s : State) : List World → Option (State × List Call)
  | [] => some (s, [])
  | w :: ws =>
    match run_event_loop s w with
    | none => none
    | some r =>
      match run_ticks r.1 ws with
      | none => none
      | some r2 => some (r2.1, r.2 ++ r2.2)

/-! ## Concrete environments and states -/

/-- A protocol with the intervals of scenario 2 of the spec. -/
def demo_protocol : DS_Protocol := ⟨500, 200, 20⟩

/-- A second protocol, with every interval doubled. -/
def swap_protocol : DS_Protocol := ⟨1000, 400, 40⟩

/-- A pass in which `demo_protocol`, stored at address 1, is current and no
parser accepts anything. -/
def demo_world (elapsed : Nat) : World :=
  { current := some 1, deref := fun _ => demo_protocol, elapsed := elapsed
    fms_packet := 0, radio_packet := 0, robot_packet := 0 }

/-- A pass in which `swap_protocol`, stored at address 2, is current and no
parser accepts anything. -/
def swap_world (elapsed : Nat) : World :=
  { current := some 2, deref := fun a => if a = 2 then swap_protocol else demo_protocol
    elapsed := elapsed, fms_packet := 0, radio_packet := 0, robot_packet := 0 }

/-- A pass in which `DS_CurrentProtocol()` is NULL. -/
def null_world (elapsed : Nat) : World :=
  { current := none, deref := fun _ => demo_protocol, elapsed := elapsed
    fms_packet := 0, radio_packet := 0, robot_packet := 0 }

/-- The statics right after `Events_Init` under `demo_world 0` on a fresh
process: running, `demo_protocol` cached, nothing ever received, so the three
watchdogs are expired. -/
def started_state : State :=
  { fms_send_timer := ⟨500, 0, 500⟩, radio_send_timer := ⟨200, 0, 200⟩
    robot_send_timer := ⟨20, 0, 20⟩, fms_recv_timer := ⟨25000, 1, 0⟩
    radio_recv_timer := ⟨10000, 1, 0⟩, robot_recv_timer := ⟨1000, 1, 0⟩
    running := 1, fms_read := 0, radio_read := 0, robot_read := 0, protocol := some 1 }

/-- A pass like `demo_world` in which the robot parser returns true. -/
def feed_world (elapsed : Nat) : World :=
  { current := some 1, deref := fun _ => demo_protocol, elapsed := elapsed
    fms_packet := 0, radio_packet := 0, robot_packet := 1 }

/-- The elapsed times of a run of ticks, summed. -/
def total_elapsed (ws : List World) : Nat := (ws.map World.elapsed).sum

/-! ## Per-peer views of one tick -/

/-- What `send_data` does to one send timer: advance it, and reset it when it
came out expired. -/
def send_step (t : DS_Timer) (elapsed : Nat) : DS_Timer :=
  if (DS_TimerUpdate t elapsed).expired ≠ 0 then DS_TimerReset (DS_TimerUpdate t elapsed)
  else DS_TimerUpdate t elapsed

/-- What `update_watchdogs` does to one receive timer: reset it when its flag is
set, then advance it. -/
def watch_step (flag : Int) (t : DS_Timer) (elapsed : Nat) : DS_Timer :=
  DS_TimerUpdate (if flag ≠ 0 then DS_TimerReset t else t) elapsed

theorem send_data_frame (s : State) (w : World) (P : Peer) :
    (send_data s w).1.recv_timer P = s.recv_timer P ∧
    (send_data s w).1.read_flag P = s.read_flag P ∧
    (send_data s w).1.protocol = s.protocol ∧
    (send_data s w).1.running = s.running := by
  unfold send_data
  cases P <;> simp only [State.recv_timer, State.read_flag] <;> split_ifs <;> simp

theorem send_data_none (s : State) (w : World) (h : s.protocol = none) :
    send_data s w = (s, []) := by
  simp [send_data, h]

theorem send_data_send_timer (s : State) (w : World) (P : Peer) (h : s.protocol ≠ none) :
    (send_data s w).1.send_timer P = send_step (s.send_timer P) w.elapsed := by
  unfold send_data send_step
  cases P <;> simp only [State.send_timer, h, if_false] <;> split_ifs <;> simp_all

theorem send_data_count (s : State) (w : World) (P : Peer) (h : s.protocol ≠ none) :
    (send_data s w).2.count (Call.create_packet P) =
      (if (DS_TimerUpdate (s.send_timer P) w.elapsed).expired ≠ 0 then 1 else 0) ∧
    (send_data s w).2.count (Call.socket_send P) =
      (if (DS_TimerUpdate (s.send_timer P) w.elapsed).expired ≠ 0 then 1 else 0) := by
  unfold send_data
  cases P <;>
    simp only [State.send_timer, h, if_false, send_fms_data, send_radio_data, send_robot_data,
      send_netconsole_data] <;>
    split_ifs <;> simp_all [List.count_cons, List.count_append]

theorem recv_data_frame (s : State) (w : World) (P : Peer) :
    (recv_data s w).1.recv_timer P = s.recv_timer P ∧
    (recv_data s w).1.send_timer P = s.send_timer P ∧
    (recv_data s w).1.protocol = s.protocol ∧
    (recv_data s w).1.running = s.running ∧
    (recv_data s w).1.read_flag P = (if s.protocol = none then s.read_flag P else w.packet P) := by
  unfold recv_data
  cases P <;>
    simp only [State.recv_timer, State.send_timer, State.read_flag, World.packet] <;>
    split_ifs <;> simp

theorem update_watchdogs_frame (s : State) (w : World) (P : Peer) :
    (update_watchdogs s w).1.send_timer P = s.send_timer P ∧
    (update_watchdogs s w).1.protocol = s.protocol ∧
    (update_watchdogs s w).1.running = s.running ∧
    (update_watchdogs s w).1.read_flag P = 0 := by
  unfold update_watchdogs feed_watchdogs
  cases P <;> simp [State.send_timer, State.read_flag]

theorem update_watchdogs_recv_timer (s : State) (w : World) (P : Peer) :
    (update_watchdogs s w).1.recv_timer P =
      watch_step (s.read_flag P) (s.recv_timer P) w.elapsed := by
  unfold update_watchdogs feed_watchdogs watch_step
  cases P <;> simp [State.recv_timer, State.read_flag]

theorem update_watchdogs_count (s : State) (w : World) (P : Peer) :
    (update_watchdogs s w).2.count (Call.watchdog_expired P) =
      (if (watch_step (s.read_flag P) (s.recv_timer P) w.elapsed).expired ≠ 0 then 1 else 0) := by
  unfold update_watchdogs feed_watchdogs watch_step
  cases P <;>
    simp only [State.recv_timer, State.read_flag, List.count_append] <;>
    split_ifs <;> simp_all [List.count_cons]

/-! ## The protocol-reconciliation phase -/

theorem check_protocol_same (s : State) (w : World) (h : s.protocol = w.current) :
    check_protocol s w = some s := by
  simp [check_protocol, h]

theorem check_protocol_null (s : State) (w : World) (h : s.protocol ≠ none)
    (hw : w.current = none) : check_protocol s w = none := by
  simp [check_protocol, hw, h]

theorem check_protocol_frame (s s1 : State) (w : World) (h : check_protocol s w = some s1)
    (P : Peer) :
    s1.protocol = w.current ∧ s1.running = s.running ∧ s1.read_flag P = s.read_flag P ∧
    (s1.send_timer P).remaining = (s.send_timer P).remaining ∧
    (s1.send_timer P).expired = (s.send_timer P).expired ∧
    (s1.recv_timer P).remaining = (s.recv_timer P).remaining ∧
    (s1.recv_timer P).expired = (s.recv_timer P).expired := by
  unfold check_protocol at h
  split_ifs at h with hc
  · cases hw : w.current with
    | none => simp [hw] at h
    | some a =>
      simp only [hw, Option.some.injEq] at h
      subst h
      cases P <;> simp [State.read_flag, State.send_timer, State.recv_timer]
  · simp only [Option.some.injEq] at h
    subst h
    simp only [ne_eq, not_not] at hc
    simp [hc]

theorem check_protocol_changed (s : State) (w : World) (a : Nat) (h : s.protocol ≠ w.current)
    (hw : w.current = some a) :
    ∃ s1, check_protocol s w = some s1 ∧ s1.protocol = some a ∧
      ∀ P : Peer, (s1.send_timer P).time = (w.deref a).interval P ∧
        (s1.recv_timer P).time = c_int ((w.deref a).interval P * 50) := by
  unfold check_protocol
  rw [if_pos h]
  simp only [hw]
  refine ⟨_, rfl, rfl, ?_⟩
  intro P
  cases P <;> simp [State.send_timer, State.recv_timer, DS_Protocol.interval]

theorem check_protocol_some (s : State) (w : World) (h : w.current ≠ none ∨ s.protocol = none) :
    ∃ s1, check_protocol s w = some s1 := by
  by_cases hc : s.protocol = w.current
  · exact ⟨s, check_protocol_same s w hc⟩
  · cases hw : w.current with
    | none =>
      rcases h with h | h
      · exact absurd hw h
      · exact absurd (h.trans hw.symm) hc
    | some a =>
      obtain ⟨s1, h1, _⟩ := check_protocol_changed s w a hc hw
      exact ⟨s1, h1⟩

/-! ## One tick of a running engine -/

theorem run_event_loop_running (s s1 : State) (w : World) (h : check_protocol s w = some s1)
    (hr : s.running ≠ 0) :
    run_event_loop s w =
      some ((update_watchdogs (recv_data (send_data s1 w).1 w).1 w).1,
        (send_data s1 w).2 ++ (recv_data (send_data s1 w).1 w).2 ++
          (update_watchdogs (recv_data (send_data s1 w).1 w).1 w).2) := by
  have h1 := (check_protocol_frame s s1 w h Peer.fms).2.1
  simp [run_event_loop, h, h1, hr]

theorem run_event_loop_stopped (s s1 : State) (w : World) (h : check_protocol s w = some s1)
    (hr : s.running = 0) : run_event_loop s w = some (s1, []) := by
  have h1 := (check_protocol_frame s s1 w h Peer.fms).2.1
  simp [run_event_loop, h, h1, hr]

theorem send_data_no_hook (s : State) (w : World) (P : Peer) :
    (send_data s w).2.count (Call.watchdog_expired P) = 0 := by
  unfold send_data
  simp only [send_fms_data, send_radio_data, send_robot_data, send_netconsole_data]
  split_ifs <;> simp [List.count_cons, List.count_append]

theorem recv_data_no_hook (s : State) (w : World) (P : Peer) :
    (recv_data s w).2.count (Call.watchdog_expired P) = 0 := by
  unfold recv_data
  split_ifs <;> simp [List.count_cons]

theorem c_int_times_fifty (x : Int) (h0 : 0 < x) (h1 : 50 * x ≤ 2147483647) :
    c_int (x * 50) = 50 * x := by
  unfold c_int
  omega

theorem started_state_reached :
    (Events_Init State.initial (demo_world 0)).map Prod.fst = some started_state := by
  decide

/-! ## C1: the watchdog hooks are level-triggered -/

/-- C1 (as stated, refuted): in `started_state` the robot watchdog is already
expired and the robot parser returns false in the tick, yet the tick invokes
`CFG_RobotWatchdogExpired`. -/
theorem c1_hook_invoked_while_already_expired :
    (started_state.recv_timer Peer.robot).expired ≠ 0 ∧
    (demo_world 5).packet Peer.robot = 0 ∧
    (run_event_loop started_state (demo_world 5)).map
      (fun r => r.2.count (Call.watchdog_expired Peer.robot)) = some 1 := by
  decide

/-- C1 (amended): a tick of a running engine in which the current protocol is
non-null or the cached one is null (so that `check_protocol` does not fault)
completes and invokes the watchdog-expired hook of a peer once if that peer's
receive timer is expired after the watchdog phase and not at all otherwise; so
when the timer was already expired before the tick, the peer's read flag is
clear at the start of the tick and the peer's parser does not return true in
it, the hook is invoked again and the timer stays expired. -/
theorem watchdog_hook_once_per_expired_tick (s : State) (w : World) (P : Peer)
    (hrun : s.running ≠ 0) (hcur : w.current ≠ none ∨ s.protocol = none) :
    ∃ s1 calls, run_event_loop s w = some (s1, calls) ∧
      calls.count (Call.watchdog_expired P) =
        (if (s1.recv_timer P).expired ≠ 0 then 1 else 0) ∧
      ((s.recv_timer P).expired ≠ 0 → s.read_flag P = 0 → w.packet P = 0 →
        calls.count (Call.watchdog_expired P) = 1 ∧ (s1.recv_timer P).expired ≠ 0) := by
  obtain ⟨s0, h0⟩ := check_protocol_some s w hcur
  have hf := check_protocol_frame s s0 w h0 P
  refine ⟨_, _, run_event_loop_running s s0 w h0 hrun, ?_, ?_⟩
  · rw [List.count_append, List.count_append, send_data_no_hook, recv_data_no_hook,
      update_watchdogs_count, update_watchdogs_recv_timer]
    simp
  · intro hexp hflag hpkt
    have hflag2 : (recv_data (send_data s0 w).1 w).1.read_flag P = 0 := by
      rw [(recv_data_frame _ w P).2.2.2.2]
      split_ifs
      · rw [(send_data_frame s0 w P).2.1, hf.2.2.1, hflag]
      · exact hpkt
    have hexp2 : ((recv_data (send_data s0 w).1 w).1.recv_timer P).expired ≠ 0 := by
      rw [(recv_data_frame _ w P).1, (send_data_frame s0 w P).1, hf.2.2.2.2.2.2]
      exact hexp
    have key : (watch_step ((recv_data (send_data s0 w).1 w).1.read_flag P)
        ((recv_data (send_data s0 w).1 w).1.recv_timer P) w.elapsed).expired ≠ 0 := by
      rw [hflag2]
      simp only [watch_step, DS_TimerUpdate, ne_eq, not_true_eq_false, if_false]
      split_ifs
      · decide
      · exact hexp2
    rw [List.count_append, List.count_append, send_data_no_hook, recv_data_no_hook,
      update_watchdogs_count, update_watchdogs_recv_timer]
    simp [key]

/-- C1 (amended), witnessed on `started_state`. -/
theorem watchdog_hook_once_per_expired_tick_witness :
    started_state.running ≠ 0 ∧
    ((demo_world 5).current ≠ none ∨ started_state.protocol = none) ∧
    ∃ s1 calls, run_event_loop started_state (demo_world 5) = some (s1, calls) ∧
      calls.count (Call.watchdog_expired Peer.robot) =
        (if (s1.recv_timer Peer.robot).expired ≠ 0 then 1 else 0) ∧
      ((started_state.recv_timer Peer.robot).expired ≠ 0 →
        started_state.read_flag Peer.robot = 0 → (demo_world 5).packet Peer.robot = 0 →
        calls.count (Call.watchdog_expired Peer.robot) = 1 ∧
          (s1.recv_timer Peer.robot).expired ≠ 0) :=
  ⟨by decide, by decide,
    watchdog_hook_once_per_expired_tick started_state (demo_world 5) Peer.robot
      (by decide) (by decide)⟩

/-! ## C2: a changed protocol pointer rewrites the six intervals -/

/-- C2: when `DS_CurrentProtocol()` returns a non-null protocol different from
the cached pointer, `check_protocol` caches it, sets the three send intervals
to the protocol's intervals and the three receive intervals to 50 times those
(for positive intervals whose 50-fold fits a C int). -/
theorem check_protocol_rewrites_intervals (s : State) (w : World) (a : Nat)
    (hne : s.protocol ≠ w.current) (hw : w.current = some a) :
    ∃ s1, check_protocol s w = some s1 ∧ s1.protocol = some a ∧
      ∀ P : Peer, (s1.send_timer P).time = (w.deref a).interval P ∧
        (0 < (w.deref a).interval P → 50 * (w.deref a).interval P ≤ 2147483647 →
          (s1.recv_timer P).time = 50 * (w.deref a).interval P) := by
  obtain ⟨s1, h1, h2, h3⟩ := check_protocol_changed s w a hne hw
  refine ⟨s1, h1, h2, fun P => ⟨(h3 P).1, fun hpos hfit => ?_⟩⟩
  rw [(h3 P).2, c_int_times_fifty _ hpos hfit]

/-- C2, witnessed on a swap from `demo_protocol` to `swap_protocol`. -/
theorem check_protocol_rewrites_intervals_witness :
    started_state.protocol ≠ (swap_world 5).current ∧ (swap_world 5).current = some 2 ∧
    ∃ s1, check_protocol started_state (swap_world 5) = some s1 ∧ s1.protocol = some 2 ∧
      ∀ P : Peer, (s1.send_timer P).time = ((swap_world 5).deref 2).interval P ∧
        (0 < ((swap_world 5).deref 2).interval P →
          50 * ((swap_world 5).deref 2).interval P ≤ 2147483647 →
          (s1.recv_timer P).time = 50 * ((swap_world 5).deref 2).interval P) :=
  ⟨by decide, rfl, check_protocol_rewrites_intervals started_state (swap_world 5) 2
    (by decide) rfl⟩

/-! ## C3: reconciliation does not reset the timers -/

/-- C3 (as stated, refuted): swapping `demo_protocol` for `swap_protocol` in
`started_state` is detected by `check_protocol`, which leaves the robot send
timer with interval 40 but remaining 20, and the robot watchdog still expired. -/
theorem c3_swap_leaves_remaining_and_expired :
    started_state.protocol ≠ (swap_world 5).current ∧
    (check_protocol started_state (swap_world 5)).map
      (fun s => ((s.send_timer Peer.robot).time, (s.send_timer Peer.robot).remaining,
        (s.recv_timer Peer.robot).expired)) = some (40, 20, 1) := by
  decide

/-- C3 (amended): when `check_protocol` detects a changed (non-null) protocol
pointer it rewrites the interval of each of the six timers and leaves their
remaining and expired fields as they were before the tick. -/
theorem check_protocol_keeps_remaining_and_expired (s : State) (w : World) (a : Nat)
    (hne : s.protocol ≠ w.current) (hw : w.current = some a) :
    ∃ s1, check_protocol s w = some s1 ∧
      ∀ P : Peer,
        s1.send_timer P = { s.send_timer P with time := (w.deref a).interval P } ∧
        s1.recv_timer P = { s.recv_timer P with time := c_int ((w.deref a).interval P * 50) } := by
  obtain ⟨s1, h1, _, h3⟩ := check_protocol_changed s w a hne hw
  refine ⟨s1, h1, fun P => ?_⟩
  have hf := check_protocol_frame s s1 w h1 P
  constructor
  · cases hs : s1.send_timer P
    have := (h3 P).1
    have := hf.2.2.2.1
    have := hf.2.2.2.2.1
    simp_all
  · cases hs : s1.recv_timer P
    have := (h3 P).2
    have := hf.2.2.2.2.2.1
    have := hf.2.2.2.2.2.2
    simp_all

/-- C3 (amended), witnessed on the swap in `started_state`. -/
theorem check_protocol_keeps_remaining_and_expired_witness :
    started_state.protocol ≠ (swap_world 5).current ∧ (swap_world 5).current = some 2 ∧
    ∃ s1, check_protocol started_state (swap_world 5) = some s1 ∧
      ∀ P : Peer,
        s1.send_timer P =
          { started_state.send_timer P with time := ((swap_world 5).deref 2).interval P } ∧
        s1.recv_timer P =
          { started_state.recv_timer P with
            time := c_int (((swap_world 5).deref 2).interval P * 50) } :=
  ⟨by decide, rfl, check_protocol_keeps_remaining_and_expired started_state (swap_world 5) 2
    (by decide) rfl⟩

/-! ## C4: a protocol set back to null -/

/-- C4 (code defect): with a non-null cached protocol and a null current
protocol, `check_protocol` assigns NULL to `protocol` and then reads
`protocol->fms_interval`, so the tick faults instead of completing. -/
theorem run_event_loop_faults_on_null_protocol (s : State) (w : World)
    (h : s.protocol ≠ none) (hw : w.current = none) : run_event_loop s w = none := by
  simp [run_event_loop, check_protocol_null s w h hw]

/-- C4, witnessed on `started_state` when the protocol is set to null. -/
theorem run_event_loop_faults_on_null_protocol_witness :
    started_state.protocol ≠ none ∧ (null_world 5).current = none ∧
    run_event_loop started_state (null_world 5) = none :=
  ⟨by decide, rfl, run_event_loop_faults_on_null_protocol started_state (null_world 5)
    (by decide) rfl⟩

/-! ## Calls that a phase never makes -/

theorem recv_data_no_send (s : State) (w : World) (P : Peer) :
    (recv_data s w).2.count (Call.create_packet P) = 0 ∧
    (recv_data s w).2.count (Call.socket_send P) = 0 := by
  unfold recv_data
  split_ifs <;> simp [List.count_cons]

theorem update_watchdogs_no_send (s : State) (w : World) (P : Peer) :
    (update_watchdogs s w).2.count (Call.create_packet P) = 0 ∧
    (update_watchdogs s w).2.count (Call.socket_send P) = 0 := by
  unfold update_watchdogs
  simp only [List.count_append]
  split_ifs <;> simp [List.count_cons]

/-! ## C5: a send happens exactly when the send timer comes out expired -/

/-- C5: in a tick of a running engine with a protocol present, the builder of
peer P is invoked and its buffer sent exactly once if P's send timer is expired
after being advanced, and then the timer ends the tick reset (remaining =
interval, expired cleared); otherwise neither call is made and the timer ends
the tick merely advanced, with no reset. -/
theorem send_iff_send_timer_expired (s : State) (w : World) (P : Peer)
    (hrun : s.running ≠ 0) (hcur : w.current ≠ none) :
    ∃ s0 s1 calls, check_protocol s w = some s0 ∧ run_event_loop s w = some (s1, calls) ∧
      ((DS_TimerUpdate (s0.send_timer P) w.elapsed).expired ≠ 0 →
        calls.count (Call.create_packet P) = 1 ∧ calls.count (Call.socket_send P) = 1 ∧
        s1.send_timer P = DS_TimerReset (DS_TimerUpdate (s0.send_timer P) w.elapsed) ∧
        (s1.send_timer P).remaining = (s1.send_timer P).time ∧
        (s1.send_timer P).expired = 0) ∧
      ((DS_TimerUpdate (s0.send_timer P) w.elapsed).expired = 0 →
        calls.count (Call.create_packet P) = 0 ∧ calls.count (Call.socket_send P) = 0 ∧
        s1.send_timer P = DS_TimerUpdate (s0.send_timer P) w.elapsed ∧
        (s1.send_timer P).remaining = (s.send_timer P).remaining - w.elapsed) := by
  obtain ⟨s0, h0⟩ := check_protocol_some s w (Or.inl hcur)
  have hf := check_protocol_frame s s0 w h0 P
  have hp : s0.protocol ≠ none := by rw [hf.1]; exact hcur
  have htimer : (update_watchdogs (recv_data (send_data s0 w).1 w).1 w).1.send_timer P =
      send_step (s0.send_timer P) w.elapsed := by
    rw [(update_watchdogs_frame _ w P).1, (recv_data_frame _ w P).2.1,
      send_data_send_timer s0 w P hp]
  have hcount := send_data_count s0 w P hp
  have hr := recv_data_no_send (send_data s0 w).1 w P
  have hu := update_watchdogs_no_send (recv_data (send_data s0 w).1 w).1 w P
  refine ⟨s0, _, _, h0, run_event_loop_running s s0 w h0 hrun, ?_, ?_⟩
  · intro hexp
    simp only [List.count_append, hcount.1, hcount.2, hr.1, hr.2, hu.1, hu.2, htimer, send_step,
      hexp, if_true, ne_eq, not_false_eq_true]
    simp [DS_TimerReset, DS_TimerUpdate]
  · intro hexp
    simp only [List.count_append, hcount.1, hcount.2, hr.1, hr.2, hu.1, hu.2, htimer, send_step,
      hexp, ne_eq, not_true_eq_false, if_false]
    simp [DS_TimerUpdate, hf.2.2.2.1]

/-- C5, witnessed on the robot peer of `started_state` after 20 ms. -/
theorem send_iff_send_timer_expired_witness :
    started_state.running ≠ 0 ∧ (demo_world 20).current ≠ none ∧
    ∃ s0 s1 calls, check_protocol started_state (demo_world 20) = some s0 ∧
      run_event_loop started_state (demo_world 20) = some (s1, calls) ∧
      ((DS_TimerUpdate (s0.send_timer Peer.robot) (demo_world 20).elapsed).expired ≠ 0 →
        calls.count (Call.create_packet Peer.robot) = 1 ∧
        calls.count (Call.socket_send Peer.robot) = 1 ∧
        s1.send_timer Peer.robot =
          DS_TimerReset (DS_TimerUpdate (s0.send_timer Peer.robot) (demo_world 20).elapsed) ∧
        (s1.send_timer Peer.robot).remaining = (s1.send_timer Peer.robot).time ∧
        (s1.send_timer Peer.robot).expired = 0) ∧
      ((DS_TimerUpdate (s0.send_timer Peer.robot) (demo_world 20).elapsed).expired = 0 →
        calls.count (Call.create_packet Peer.robot) = 0 ∧
        calls.count (Call.socket_send Peer.robot) = 0 ∧
        s1.send_timer Peer.robot =
          DS_TimerUpdate (s0.send_timer Peer.robot) (demo_world 20).elapsed ∧
        (s1.send_timer Peer.robot).remaining =
          (started_state.send_timer Peer.robot).remaining - (demo_world 20).elapsed) :=
  ⟨by decide, by decide,
    send_iff_send_timer_expired started_state (demo_world 20) Peer.robot (by decide) (by decide)⟩

/-! ## Ticks under a fixed protocol -/

theorem run_event_loop_fixed (s : State) (w : World) (a : Nat) (hrun : s.running ≠ 0)
    (hp : s.protocol = some a) (hw : w.current = some a) :
    ∃ s1 calls, run_event_loop s w = some (s1, calls) ∧ s1.running = s.running ∧
      s1.protocol = some a ∧
      ∀ P : Peer,
        s1.send_timer P = send_step (s.send_timer P) w.elapsed ∧
        calls.count (Call.socket_send P) =
          (if (DS_TimerUpdate (s.send_timer P) w.elapsed).expired ≠ 0 then 1 else 0) ∧
        s1.recv_timer P = watch_step (w.packet P) (s.recv_timer P) w.elapsed ∧
        calls.count (Call.watchdog_expired P) =
          (if (s1.recv_timer P).expired ≠ 0 then 1 else 0) := by
  have h0 : check_protocol s w = some s := check_protocol_same s w (hp.trans hw.symm)
  have hne : s.protocol ≠ none := by simp [hp]
  have hne2 : (send_data s w).1.protocol ≠ none := by
    rw [(send_data_frame s w Peer.fms).2.2.1]
    exact hne
  refine ⟨_, _, run_event_loop_running s s w h0 hrun, ?_, ?_, fun P => ⟨?_, ?_, ?_, ?_⟩⟩
  · rw [(update_watchdogs_frame _ w Peer.fms).2.2.1, (recv_data_frame _ w Peer.fms).2.2.2.1,
      (send_data_frame s w Peer.fms).2.2.2]
  · rw [(update_watchdogs_frame _ w Peer.fms).2.1, (recv_data_frame _ w Peer.fms).2.2.1,
      (send_data_frame s w Peer.fms).2.2.1, hp]
  · rw [(update_watchdogs_frame _ w P).1, (recv_data_frame _ w P).2.1,
      send_data_send_timer s w P hne]
  · rw [List.count_append, List.count_append, (send_data_count s w P hne).2,
      (recv_data_no_send _ w P).2, (update_watchdogs_no_send _ w P).2]
    simp
  · rw [update_watchdogs_recv_timer, (recv_data_frame _ w P).2.2.2.2, if_neg hne2,
      (recv_data_frame _ w P).1, (send_data_frame s w P).1]
  · rw [List.count_append, List.count_append, send_data_no_hook, recv_data_no_hook,
      update_watchdogs_count, update_watchdogs_recv_timer]
    simp

theorem total_elapsed_cons (w : World) (ws : List World) :
    total_elapsed (w :: ws) = w.elapsed + total_elapsed ws := by
  simp [total_elapsed]

theorem total_elapsed_nil : total_elapsed [] = 0 := rfl

theorem watch_step_fed (flag : Int) (t : DS_Timer) (e : Nat) (h : flag ≠ 0) :
    watch_step flag t e =
      ⟨t.time, if t.time - (e : Nat) ≤ 0 then 1 else 0, t.time - (e : Nat)⟩ := by
  simp [watch_step, DS_TimerUpdate, DS_TimerReset, h]

theorem watch_step_starved (T : Int) (acc e : Nat) :
    watch_step 0 ⟨T, if T - acc ≤ 0 then 1 else 0, T - acc⟩ e =
      ⟨T, if T - (acc + e : Nat) ≤ 0 then 1 else 0, T - (acc + e : Nat)⟩ := by
  simp only [watch_step, DS_TimerUpdate, ne_eq, not_true_eq_false, if_false]
  congr 1
  · push_cast
    split_ifs <;> omega
  · push_cast
    omega

theorem starved_watchdog (ws : List World) (s : State) (a : Nat) (P : Peer) (T : Int)
    (acc : Nat)
    (hrun : s.running ≠ 0) (hp : s.protocol = some a)
    (hws : ∀ w ∈ ws, w.current = some a ∧ w.packet P = 0)
    (ht : s.recv_timer P = ⟨T, if T - acc ≤ 0 then 1 else 0, T - acc⟩) :
    ∃ s1 calls, run_ticks s ws = some (s1, calls) ∧ s1.running ≠ 0 ∧
      s1.protocol = some a ∧
      s1.recv_timer P =
        ⟨T, if T - (acc + total_elapsed ws : Nat) ≤ 0 then 1 else 0,
          T - (acc + total_elapsed ws : Nat)⟩ := by
  induction ws generalizing s acc with
  | nil => exact ⟨s, [], rfl, hrun, hp, by simpa [total_elapsed_nil] using ht⟩
  | cons w ws ih =>
    have hw := hws w (List.mem_cons_self _ _)
    obtain ⟨s1, c1, h1, hr1, hp1, hP⟩ := run_event_loop_fixed s w a hrun hp hw.1
    have ht1 : s1.recv_timer P =
        ⟨T, if T - (acc + w.elapsed : Nat) ≤ 0 then 1 else 0,
          T - (acc + w.elapsed : Nat)⟩ := by
      rw [(hP P).2.2.1, hw.2, ht, watch_step_starved]
    obtain ⟨s2, c2, h2, hr2, hp2, ht2⟩ :=
      ih s1 (acc + w.elapsed) (hr1 ▸ hrun) hp1
        (fun x hx => hws x (List.mem_cons_of_mem _ hx)) ht1
    refine ⟨s2, c1 ++ c2, by simp [run_ticks, h1, h2], hr2, hp2, ?_⟩
    rw [ht2, total_elapsed_cons, Nat.add_assoc]

/-! ## C6: the watchdog counts from the tick of the successful parse -/

/-- C6 (as stated, refuted): the robot parser returns true in a tick of 600 ms
and false in the next tick of 400 ms; the robot watchdog (50 * 20 = 1000 ms) is
reset and then advanced by the 600 ms of the parsing tick, so the hook is
invoked in the next tick, when only 400 ms have passed since the parse. -/
theorem c6_hook_invoked_before_fifty_intervals :
    (feed_world 600).packet Peer.robot ≠ 0 ∧ (demo_world 400).packet Peer.robot = 0 ∧
    (400 : Int) < 50 * demo_protocol.interval Peer.robot ∧
    (run_event_loop started_state (feed_world 600)).map
      (fun r => r.2.count (Call.watchdog_expired Peer.robot)) = some 0 ∧
    ((run_event_loop started_state (feed_world 600)).bind
      (fun r => run_event_loop r.1 (demo_world 400))).map
      (fun r => r.2.count (Call.watchdog_expired Peer.robot)) = some 1 := by
  decide

/-- C6 (amended): under a fixed protocol, with P's watchdog interval at 50 * I,
after a tick `w0` in which P's parser returned true and any run `ws` of ticks in
which it returned false, a further such tick `w` invokes P's watchdog-expired
hook if and only if the elapsed times of `w0`, `ws` and `w` together reach
50 * I; in particular it does so as soon as the time elapsed after `w0` reaches
50 * I. -/
theorem watchdog_hook_after_fifty_intervals (s : State) (w0 : World) (ws : List World)
    (w : World) (a : Nat) (P : Peer) (I : Int)
    (hrun : s.running ≠ 0) (hp : s.protocol = some a)
    (hT : (s.recv_timer P).time = 50 * I)
    (h0 : w0.current = some a ∧ w0.packet P ≠ 0)
    (hws : ∀ x ∈ ws, x.current = some a ∧ x.packet P = 0)
    (hw : w.current = some a ∧ w.packet P = 0) :
    ∃ s1 c1 s2 c2 s3 c3, run_event_loop s w0 = some (s1, c1) ∧
      run_ticks s1 ws = some (s2, c2) ∧ run_event_loop s2 w = some (s3, c3) ∧
      c3.count (Call.watchdog_expired P) =
        (if 50 * I ≤ (w0.elapsed + total_elapsed ws + w.elapsed : Nat) then 1 else 0) ∧
      (50 * I ≤ (total_elapsed ws + w.elapsed : Nat) →
        c3.count (Call.watchdog_expired P) = 1) := by
  obtain ⟨s1, c1, h1, hr1, hp1, hP1⟩ := run_event_loop_fixed s w0 a hrun hp h0.1
  have ht1 : s1.recv_timer P =
      ⟨50 * I, if 50 * I - (w0.elapsed : Nat) ≤ 0 then 1 else 0,
        50 * I - (w0.elapsed : Nat)⟩ := by
    rw [(hP1 P).2.2.1, watch_step_fed _ _ _ h0.2, hT]
  obtain ⟨s2, c2, h2, hr2, hp2, ht2⟩ :=
    starved_watchdog ws s1 a P (50 * I) w0.elapsed (hr1 ▸ hrun) hp1 hws ht1
  obtain ⟨s3, c3, h3, _, _, hP3⟩ := run_event_loop_fixed s2 w a hr2 hp2 hw.1
  have ht3 := (hP3 P).2.2.1
  rw [hw.2, ht2, watch_step_starved] at ht3
  have hc := (hP3 P).2.2.2
  rw [ht3] at hc
  refine ⟨s1, c1, s2, c2, s3, c3, h1, h2, h3, ?_, ?_⟩
  · rw [hc]
    simp only [ne_eq, ite_eq_right_iff, one_ne_zero, imp_false, not_le, not_lt]
    push_cast
    split_ifs <;> omega
  · intro hge
    rw [hc]
    simp only [ne_eq, ite_eq_right_iff, one_ne_zero, imp_false, not_le, not_lt]
    push_cast at hge ⊢
    split_ifs <;> omega

/-- C6 (amended), witnessed on the robot peer: fed in a tick of 600 ms, starved
for 300 ms and then for 100 ms. -/
theorem watchdog_hook_after_fifty_intervals_witness :
    started_state.running ≠ 0 ∧ started_state.protocol = some 1 ∧
    (started_state.recv_timer Peer.robot).time = 50 * 20 ∧
    ((feed_world 600).current = some 1 ∧ (feed_world 600).packet Peer.robot ≠ 0) ∧
    (∀ x ∈ [demo_world 300], x.current = some 1 ∧ x.packet Peer.robot = 0) ∧
    ((demo_world 100).current = some 1 ∧ (demo_world 100).packet Peer.robot = 0) ∧
    ∃ s1 c1 s2 c2 s3 c3, run_event_loop started_state (feed_world 600) = some (s1, c1) ∧
      run_ticks s1 [demo_world 300] = some (s2, c2) ∧
      run_event_loop s2 (demo_world 100) = some (s3, c3) ∧
      c3.count (Call.watchdog_expired Peer.robot) =
        (if 50 * (20 : Int) ≤
            ((feed_world 600).elapsed + total_elapsed [demo_world 300] +
              (demo_world 100).elapsed : Nat) then 1 else 0) ∧
      (50 * (20 : Int) ≤ (total_elapsed [demo_world 300] + (demo_world 100).elapsed : Nat) →
        c3.count (Call.watchdog_expired Peer.robot) = 1) :=
  ⟨by decide, rfl, by decide, ⟨rfl, by decide⟩, by simp [demo_world, World.packet],
    ⟨rfl, rfl⟩,
    watchdog_hook_after_fifty_intervals started_state (feed_world 600) [demo_world 300]
      (demo_world 100) 1 Peer.robot 20 (by decide) rfl (by decide) ⟨rfl, by decide⟩
      (by simp [demo_world, World.packet]) ⟨rfl, rfl⟩⟩

/-! ## Intervals survive the per-peer steps -/

theorem send_step_time (t : DS_Timer) (e : Nat) : (send_step t e).time = t.time := by
  unfold send_step
  split_ifs <;> simp [DS_TimerReset, DS_TimerUpdate]

theorem watch_step_time (flag : Int) (t : DS_Timer) (e : Nat) :
    (watch_step flag t e).time = t.time := by
  unfold watch_step
  split_ifs <;> simp [DS_TimerReset, DS_TimerUpdate]

/-! ## C7: restarting under an unchanged protocol -/

/-- C7 (code defect): `Events_Init` on a stopped engine whose cached protocol
is still the current one re-initialises the six timers with interval 0, and the
tick it fires sees no protocol change, so after that tick, made while running
under a non-null protocol, every send and receive interval is 0 instead of the
protocol's interval and 50 times it. -/
theorem restart_leaves_zero_intervals (s : State) (w : World) (a : Nat)
    (hstop : s.running = 0) (hp : s.protocol = some a) (hw : w.current = some a) :
    ∃ s1 calls, Events_Init s w = some (s1, calls) ∧ s1.running = 1 ∧
      s1.protocol = some a ∧
      ∀ P : Peer, (s1.send_timer P).time = 0 ∧ (s1.recv_timer P).time = 0 := by
  unfold Events_Init
  rw [if_pos hstop]
  obtain ⟨s1, c1, h1, hr1, hp1, hP⟩ := run_event_loop_fixed
    { s with
      fms_send_timer := DS_TimerInit s.fms_send_timer 0
      fms_recv_timer := DS_TimerInit s.fms_recv_timer 0
      radio_send_timer := DS_TimerInit s.radio_send_timer 0
      radio_recv_timer := DS_TimerInit s.radio_recv_timer 0
      robot_send_timer := DS_TimerInit s.robot_send_timer 0
      robot_recv_timer := DS_TimerInit s.robot_recv_timer 0
      running := 1 } w a (by simp) hp hw
  refine ⟨s1, c1, h1, hr1, hp1, fun P => ?_⟩
  rw [(hP P).1, (hP P).2.2.1, send_step_time, watch_step_time]
  cases P <;> simp [State.send_timer, State.recv_timer, DS_TimerInit]

/-- C7, witnessed on stop() then start() after `started_state`, where the
protocol's robot interval is 20. -/
theorem restart_leaves_zero_intervals_witness :
    (Events_Close started_state).running = 0 ∧
    (Events_Close started_state).protocol = some 1 ∧ (demo_world 5).current = some 1 ∧
    ((demo_world 5).deref 1).interval Peer.robot = 20 ∧
    ∃ s1 calls, Events_Init (Events_Close started_state) (demo_world 5) = some (s1, calls) ∧
      s1.running = 1 ∧ s1.protocol = some 1 ∧
      ∀ P : Peer, (s1.send_timer P).time = 0 ∧ (s1.recv_timer P).time = 0 :=
  ⟨rfl, rfl, rfl, rfl,
    restart_leaves_zero_intervals (Events_Close started_state) (demo_world 5) 1 rfl rfl rfl⟩

/-! ## Ticks without a protocol -/

theorem update_watchdogs_only_hooks (s : State) (w : World) :
    ∀ c ∈ (update_watchdogs s w).2, ∃ P, c = Call.watchdog_expired P := by
  unfold update_watchdogs
  intro c hc
  simp only [List.mem_append] at hc
  rcases hc with (hc | hc) | hc <;> split_ifs at hc <;> simp at hc <;> exact ⟨_, hc⟩

theorem run_event_loop_no_protocol (s : State) (w : World) (hp : s.protocol = none)
    (hw : w.current = none) :
    ∃ s1 calls, run_event_loop s w = some (s1, calls) ∧ s1.protocol = none ∧
      ∀ c ∈ calls, ∃ P, c = Call.watchdog_expired P := by
  have h0 : check_protocol s w = some s := check_protocol_same s w (hp.trans hw.symm)
  by_cases hrun : s.running = 0
  · exact ⟨s, [], run_event_loop_stopped s s w h0 hrun, hp, by simp⟩
  · refine ⟨_, _, run_event_loop_running s s w h0 hrun, ?_, ?_⟩
    · rw [(update_watchdogs_frame _ w Peer.fms).2.1, (recv_data_frame _ w Peer.fms).2.2.1,
        (send_data_frame s w Peer.fms).2.2.1, hp]
    · rw [send_data_none s w hp]
      have hr : recv_data s w = (s, []) := by simp [recv_data, hp]
      rw [hr]
      simpa using update_watchdogs_only_hooks s w

theorem run_ticks_no_protocol (ws : List World) (s : State) (hp : s.protocol = none)
    (hws : ∀ w ∈ ws, w.current = none) :
    ∃ s1 calls, run_ticks s ws = some (s1, calls) ∧ s1.protocol = none ∧
      ∀ c ∈ calls, ∃ P, c = Call.watchdog_expired P := by
  induction ws generalizing s with
  | nil => exact ⟨s, [], rfl, hp, by simp⟩
  | cons w ws ih =>
    obtain ⟨s1, c1, h1, hp1, hc1⟩ :=
      run_event_loop_no_protocol s w hp (hws w (List.mem_cons_self _ _))
    obtain ⟨s2, c2, h2, hp2, hc2⟩ := ih s1 hp1 (fun x hx => hws x (List.mem_cons_of_mem _ hx))
    refine ⟨s2, c1 ++ c2, by simp [run_ticks, h1, h2], hp2, ?_⟩
    intro c hc
    rcases List.mem_append.mp hc with h | h
    · exact hc1 c h
    · exact hc2 c h

/-! ## C9: cold start without a protocol -/

/-- C9: with the cached and the current protocol both null, `Events_Init`
followed by any number of ticks of any elapsed time completes and makes no call
other than watchdog-expired hooks: no packet builder, no socket send (NetConsole
included), no socket read and no parser is invoked. -/
theorem cold_start_makes_no_traffic (s : State) (w0 : World) (ws : List World)
    (hp : s.protocol = none) (h0 : w0.current = none) (hws : ∀ w ∈ ws, w.current = none) :
    ∃ s1 c1 s2 c2, Events_Init s w0 = some (s1, c1) ∧ run_ticks s1 ws = some (s2, c2) ∧
      (∀ c ∈ c1 ++ c2, ∃ P, c = Call.watchdog_expired P) ∧
      ∀ P : Peer, Call.create_packet P ∉ c1 ++ c2 ∧ Call.socket_send P ∉ c1 ++ c2 ∧
        Call.netconsole_send ∉ c1 ++ c2 ∧ Call.socket_read P ∉ c1 ++ c2 ∧
        Call.read_packet P ∉ c1 ++ c2 := by
  have hinit : ∃ s1 c1, Events_Init s w0 = some (s1, c1) ∧ s1.protocol = none ∧
      ∀ c ∈ c1, ∃ P, c = Call.watchdog_expired P := by
    unfold Events_Init
    split_ifs with hrun
    · exact run_event_loop_no_protocol _ w0 hp h0
    · exact ⟨s, [], rfl, hp, by simp⟩
  obtain ⟨s1, c1, h1, hp1, hc1⟩ := hinit
  obtain ⟨s2, c2, h2, _, hc2⟩ := run_ticks_no_protocol ws s1 hp1 hws
  have hall : ∀ c ∈ c1 ++ c2, ∃ P, c = Call.watchdog_expired P := by
    intro c hc
    rcases List.mem_append.mp hc with h | h
    · exact hc1 c h
    · exact hc2 c h
  refine ⟨s1, c1, s2, c2, h1, h2, hall, fun P => ⟨?_, ?_, ?_, ?_, ?_⟩⟩ <;>
    · intro hmem
      obtain ⟨Q, hQ⟩ := hall _ hmem
      cases hQ

/-- C9, witnessed on a fresh process: start() and two ticks, 1000 ms and 3 ms. -/
theorem cold_start_makes_no_traffic_witness :
    State.initial.protocol = none ∧ (null_world 0).current = none ∧
    (∀ w ∈ [null_world 1000, null_world 3], w.current = none) ∧
    ∃ s1 c1 s2 c2, Events_Init State.initial (null_world 0) = some (s1, c1) ∧
      run_ticks s1 [null_world 1000, null_world 3] = some (s2, c2) ∧
      (∀ c ∈ c1 ++ c2, ∃ P, c = Call.watchdog_expired P) ∧
      ∀ P : Peer, Call.create_packet P ∉ c1 ++ c2 ∧ Call.socket_send P ∉ c1 ++ c2 ∧
        Call.netconsole_send ∉ c1 ++ c2 ∧ Call.socket_read P ∉ c1 ++ c2 ∧
        Call.read_packet P ∉ c1 ++ c2 :=
  ⟨rfl, rfl, by simp [null_world],
    cold_start_makes_no_traffic State.initial (null_world 0) [null_world 1000, null_world 3]
      rfl rfl (by simp [null_world])⟩

/-! ## The send view of a tick, and the statics after a cold start -/

theorem run_event_loop_send_view (s s0 : State) (w : World)
    (h0 : check_protocol s w = some s0) (hrun : s.running ≠ 0) (hcur : w.current ≠ none) :
    ∃ s1 calls, run_event_loop s w = some (s1, calls) ∧
      ∀ P : Peer, s1.send_timer P = send_step (s0.send_timer P) w.elapsed ∧
        calls.count (Call.create_packet P) =
          (if (DS_TimerUpdate (s0.send_timer P) w.elapsed).expired ≠ 0 then 1 else 0) ∧
        calls.count (Call.socket_send P) =
          (if (DS_TimerUpdate (s0.send_timer P) w.elapsed).expired ≠ 0 then 1 else 0) := by
  have hp : s0.protocol ≠ none := by
    rw [(check_protocol_frame s s0 w h0 Peer.fms).1]; exact hcur
  refine ⟨_, _, run_event_loop_running s s0 w h0 hrun, fun P => ⟨?_, ?_, ?_⟩⟩
  · rw [(update_watchdogs_frame _ w P).1, (recv_data_frame _ w P).2.1,
      send_data_send_timer s0 w P hp]
  · rw [List.count_append, List.count_append, (send_data_count s0 w P hp).1,
      (recv_data_no_send _ w P).1, (update_watchdogs_no_send _ w P).1]
    simp
  · rw [List.count_append, List.count_append, (send_data_count s0 w P hp).2,
      (recv_data_no_send _ w P).2, (update_watchdogs_no_send _ w P).2]
    simp

theorem cold_start_send_timers (w0 : World) (h0 : w0.current = none) :
    ∃ s1 c1, Events_Init State.initial w0 = some (s1, c1) ∧ s1.running = 1 ∧
      s1.protocol = none ∧ ∀ P : Peer, s1.send_timer P = ⟨0, 0, 0⟩ := by
  have hc : check_protocol
      { State.initial with
        fms_send_timer := DS_TimerInit State.initial.fms_send_timer 0
        fms_recv_timer := DS_TimerInit State.initial.fms_recv_timer 0
        radio_send_timer := DS_TimerInit State.initial.radio_send_timer 0
        radio_recv_timer := DS_TimerInit State.initial.radio_recv_timer 0
        robot_send_timer := DS_TimerInit State.initial.robot_send_timer 0
        robot_recv_timer := DS_TimerInit State.initial.robot_recv_timer 0
        running := 1 } w0 = some _ :=
    check_protocol_same _ w0 (by simp [State.initial, h0])
  unfold Events_Init
  rw [if_pos (show State.initial.running = 0 from rfl)]
  refine ⟨_, _, run_event_loop_running _ _ w0 hc (by simp), ?_, ?_, fun P => ?_⟩
  · rw [(update_watchdogs_frame _ w0 Peer.fms).2.2.1, (recv_data_frame _ w0 Peer.fms).2.2.2.1,
      (send_data_frame _ w0 Peer.fms).2.2.2]
  · rw [(update_watchdogs_frame _ w0 Peer.fms).2.1, (recv_data_frame _ w0 Peer.fms).2.2.1,
      (send_data_frame _ w0 Peer.fms).2.2.1]
    rfl
  · rw [(update_watchdogs_frame _ w0 P).1, (recv_data_frame _ w0 P).2.1,
      send_data_none _ w0 rfl]
    cases P <;> rfl

/-! ## C8: scenario 2, the first tick after a protocol is installed -/

/-- C8 (as stated, refuted): after start() without a protocol, installing the
protocol with intervals 500, 200, 20 and running one tick of 20 ms builds and
sends one FMS packet and one radio packet besides the robot packet. -/
theorem c8_fms_and_radio_are_sent_too :
    ((Events_Init State.initial (null_world 0)).bind
      (fun r => run_event_loop r.1 (demo_world 20))).map
      (fun r => [r.2.count (Call.create_packet Peer.fms), r.2.count (Call.socket_send Peer.fms),
        r.2.count (Call.create_packet Peer.radio), r.2.count (Call.socket_send Peer.radio),
        r.2.count (Call.create_packet Peer.robot), r.2.count (Call.socket_send Peer.robot)]) =
      some [1, 1, 1, 1, 1, 1] ∧
    ((Events_Init State.initial (null_world 0)).bind
      (fun r => run_event_loop r.1 (demo_world 20))).map
      (fun r => r.1.robot_send_timer) = some ⟨20, 0, 20⟩ := by
  decide

/-- C8 (amended): after start() without a protocol, installing the protocol
with intervals 500, 200, 20 and running one tick of 20 ms builds and sends
exactly one packet for each of FMS, radio and robot, and each send timer ends
the tick reset, with remaining equal to its interval (20 for the robot) and
expired cleared. -/
theorem scenario_two_sends_to_every_peer (w0 w : World) (a : Nat)
    (h0 : w0.current = none) (hw : w.current = some a) (hd : w.deref a = demo_protocol)
    (he : w.elapsed = 20) :
    ∃ s1 c1 s2 c2, Events_Init State.initial w0 = some (s1, c1) ∧
      run_event_loop s1 w = some (s2, c2) ∧
      ∀ P : Peer, c2.count (Call.create_packet P) = 1 ∧ c2.count (Call.socket_send P) = 1 ∧
        s2.send_timer P = ⟨demo_protocol.interval P, 0, demo_protocol.interval P⟩ := by
  obtain ⟨s1, c1, h1, hr1, hp1, ht1⟩ := cold_start_send_timers w0 h0
  have hne : s1.protocol ≠ w.current := by simp [hp1, hw]
  obtain ⟨s0, hs0, _, hint⟩ := check_protocol_changed s1 w a hne hw
  have hrun : s1.running ≠ 0 := by simp [hr1]
  obtain ⟨s2, c2, h2, hP⟩ := run_event_loop_send_view s1 s0 w hs0 hrun (by simp [hw])
  refine ⟨s1, c1, s2, c2, h1, h2, fun P => ?_⟩
  have hf := check_protocol_frame s1 s0 w hs0 P
  have htimer : s0.send_timer P = ⟨demo_protocol.interval P, 0, 0⟩ := by
    cases hs : s0.send_timer P
    have h3 := (hint P).1
    have h4 := hf.2.2.2.1
    have h5 := hf.2.2.2.2.1
    rw [ht1 P] at h4 h5
    simp_all
  rw [(hP P).1, (hP P).2.1, (hP P).2.2, htimer, he]
  simp [send_step, DS_TimerUpdate, DS_TimerReset]

/-- C8 (amended), witnessed with nothing received in either tick. -/
theorem scenario_two_sends_to_every_peer_witness :
    (null_world 0).current = none ∧ (demo_world 20).current = some 1 ∧
    (demo_world 20).deref 1 = demo_protocol ∧ (demo_world 20).elapsed = 20 ∧
    ∃ s1 c1 s2 c2, Events_Init State.initial (null_world 0) = some (s1, c1) ∧
      run_event_loop s1 (demo_world 20) = some (s2, c2) ∧
      ∀ P : Peer, c2.count (Call.create_packet P) = 1 ∧ c2.count (Call.socket_send P) = 1 ∧
        s2.send_timer P = ⟨demo_protocol.interval P, 0, demo_protocol.interval P⟩ :=
  ⟨rfl, rfl, rfl, rfl,
    scenario_two_sends_to_every_peer (null_world 0) (demo_world 20) 1 rfl rfl rfl rfl⟩

/-! ## Elapsed time against the number of sends -/

theorem send_count_bound (ws : List World) (s : State) (a : Nat) (P : Peer) (I : Int)
    (d : Nat)
    (hrun : s.running ≠ 0) (hp : s.protocol = some a) (hcur : ∀ w ∈ ws, w.current = some a)
    (htime : (s.send_timer P).time = I) (hI : 0 < I) (hd : ∀ w ∈ ws, w.elapsed ≤ d) :
    ∃ s1 calls, run_ticks s ws = some (s1, calls) ∧
      (total_elapsed ws : Int) <
        (calls.count (Call.socket_send P) : Int) * (I + d) +
          max (s.send_timer P).remaining 1 + d := by
  induction ws generalizing s with
  | nil =>
    refine ⟨s, [], rfl, ?_⟩
    have h1 : (1 : Int) ≤ max (s.send_timer P).remaining 1 := le_max_right _ _
    have h2 : (0 : Int) ≤ (d : Int) := Int.ofNat_nonneg d
    simp only [total_elapsed_nil, List.count_nil, Nat.cast_zero, zero_mul, zero_add]
    linarith
  | cons w ws ih =>
    obtain ⟨s1, c1, h1, hr1, hp1, hP⟩ :=
      run_event_loop_fixed s w a hrun hp (hcur w (List.mem_cons_self _ _))
    have htime1 : (s1.send_timer P).time = I := by rw [(hP P).1, send_step_time, htime]
    obtain ⟨s2, c2, h2, hb⟩ :=
      ih s1 (hr1 ▸ hrun) hp1 (fun x hx => hcur x (List.mem_cons_of_mem _ hx)) htime1
        (fun x hx => hd x (List.mem_cons_of_mem _ hx))
    refine ⟨s2, c1 ++ c2, by simp [run_ticks, h1, h2], ?_⟩
    have he : (w.elapsed : Int) ≤ (d : Int) := by exact_mod_cast hd w (List.mem_cons_self _ _)
    have hd0 : (0 : Int) ≤ (d : Int) := Int.ofNat_nonneg d
    rw [total_elapsed_cons, List.count_append, (hP P).2.1]
    rw [(hP P).1] at hb
    unfold send_step at hb
    by_cases hexp : (DS_TimerUpdate (s.send_timer P) w.elapsed).expired ≠ 0
    · rw [if_pos hexp] at hb ⊢
      have hrem : (DS_TimerReset (DS_TimerUpdate (s.send_timer P) w.elapsed)).remaining = I := by
        simp [DS_TimerReset, DS_TimerUpdate, htime]
      rw [hrem, max_eq_left (by omega : (1 : Int) ≤ I)] at hb
      have hm : (1 : Int) ≤ max (s.send_timer P).remaining 1 := le_max_right _ _
      push_cast
      linarith
    · rw [if_neg hexp] at hb ⊢
      have hgt : 0 < (s.send_timer P).remaining - (w.elapsed : Int) := by
        by_contra hle
        apply hexp
        simp only [DS_TimerUpdate]
        rw [if_pos (by omega)]
        decide
      have hrem : (DS_TimerUpdate (s.send_timer P) w.elapsed).remaining =
          (s.send_timer P).remaining - (w.elapsed : Int) := rfl
      rw [hrem, max_eq_left (by omega)] at hb
      have hm : (s.send_timer P).remaining ≤ max (s.send_timer P).remaining 1 := le_max_left _ _
      push_cast
      linarith

/-! ## C10: at most one send per tick, and the overshoot of a tick is dropped -/

/-- C10 (as stated, refuted): the robot send interval is 20; one tick of 40 ms
(two intervals) yields one robot send, and four ticks of 15 ms (three intervals)
yield two. -/
theorem c10_fewer_sends_than_intervals :
    started_state.running ≠ 0 ∧ started_state.send_timer Peer.robot = ⟨20, 0, 20⟩ ∧
    2 * 20 ≤ total_elapsed [demo_world 40] ∧
    (run_ticks started_state [demo_world 40]).map
      (fun r => r.2.count (Call.socket_send Peer.robot)) = some 1 ∧
    3 * 20 ≤ total_elapsed [demo_world 15, demo_world 15, demo_world 15, demo_world 15] ∧
    (run_ticks started_state [demo_world 15, demo_world 15, demo_world 15, demo_world 15]).map
      (fun r => r.2.count (Call.socket_send Peer.robot)) = some 2 := by
  decide

/-- C10 (amended): with the engine running under a fixed protocol, for a peer P
whose send timer has positive interval I and at most I remaining, and for every
run of ticks each of which elapses at most d, if the elapsed times sum to at
least k * (I + d) then at least k sends to P occur during the run. -/
theorem sends_at_least_per_interval_plus_tick (s : State) (ws : List World) (a : Nat)
    (P : Peer) (I : Int) (k d : Nat)
    (hrun : s.running ≠ 0) (hp : s.protocol = some a) (hcur : ∀ w ∈ ws, w.current = some a)
    (htime : (s.send_timer P).time = I) (hI : 0 < I)
    (hrem : (s.send_timer P).remaining ≤ I)
    (hd : ∀ w ∈ ws, w.elapsed ≤ d) (hsum : (k : Int) * (I + d) ≤ total_elapsed ws) :
    ∃ s1 calls, run_ticks s ws = some (s1, calls) ∧ k ≤ calls.count (Call.socket_send P) := by
  obtain ⟨s1, calls, h1, hb⟩ := send_count_bound ws s a P I d hrun hp hcur htime hI hd
  refine ⟨s1, calls, h1, ?_⟩
  have hm : max (s.send_timer P).remaining 1 ≤ I := max_le hrem (by omega)
  have hd0 : (0 : Int) ≤ (d : Int) := Int.ofNat_nonneg d
  by_contra hlt
  have hk : (calls.count (Call.socket_send P) : Int) + 1 ≤ (k : Int) := by
    exact_mod_cast Nat.lt_of_not_le hlt
  have hmul := mul_le_mul_of_nonneg_right hk (by linarith : (0 : Int) ≤ I + d)
  linarith

/-- C10 (amended), witnessed on the robot peer: four ticks of 15 ms reach
2 * (20 + 15) ms only with a fifth, and five ticks contain two sends. -/
theorem sends_at_least_per_interval_plus_tick_witness :
    started_state.running ≠ 0 ∧ started_state.protocol = some 1 ∧
    (∀ w ∈ List.replicate 5 (demo_world 15), w.current = some 1) ∧
    (started_state.send_timer Peer.robot).time = 20 ∧ (0 : Int) < 20 ∧
    (started_state.send_timer Peer.robot).remaining ≤ 20 ∧
    (∀ w ∈ List.replicate 5 (demo_world 15), w.elapsed ≤ 15) ∧
    ((2 : Nat) : Int) * (20 + (15 : Nat)) ≤ total_elapsed (List.replicate 5 (demo_world 15)) ∧
    ∃ s1 calls, run_ticks started_state (List.replicate 5 (demo_world 15)) = some (s1, calls) ∧
      2 ≤ calls.count (Call.socket_send Peer.robot) :=
  ⟨by decide, rfl, by simp [demo_world], by decide, by decide, by decide,
    by simp [demo_world], by decide,
    sends_at_least_per_interval_plus_tick started_state (List.replicate 5 (demo_world 15)) 1
      Peer.robot 20 2 15 (by decide) rfl (by simp [demo_world]) (by decide) (by decide)
      (by decide) (by simp [demo_world]) (by decide)⟩

/-! ## Ticks of a stopped engine -/

/-- A stopped engine does nothing beyond `check_protocol`: `Events_Close`
clears `running`, and a tick made with `running = 0` makes no call at all (no
builder, socket send or read, parser or watchdog hook) and leaves `running`,
the remaining and expired fields of the six timers and the three parser-result
flags unchanged. The tick completes in every case but the dereference of a
protocol set back to null, where it faults inside `check_protocol`. -/
theorem stopped_tick_is_noop (s : State) (w : World) (hstop : s.running = 0) :
    (∀ s0 : State, (Events_Close s0).running = 0) ∧
    ((w.current ≠ none ∨ s.protocol = none) →
      ∃ s1, run_event_loop s w = some (s1, []) ∧ s1.running = 0 ∧
        ∀ P : Peer,
          (s1.send_timer P).remaining = (s.send_timer P).remaining ∧
          (s1.send_timer P).expired = (s.send_timer P).expired ∧
          (s1.recv_timer P).remaining = (s.recv_timer P).remaining ∧
          (s1.recv_timer P).expired = (s.recv_timer P).expired ∧
          s1.read_flag P = s.read_flag P) ∧
    ((s.protocol ≠ none ∧ w.current = none) → run_event_loop s w = none) := by
  refine ⟨fun _ => rfl, fun hcur => ?_, fun hnull => ?_⟩
  · obtain ⟨s1, h1⟩ := check_protocol_some s w hcur
    refine ⟨s1, run_event_loop_stopped s s1 w h1 hstop, ?_, fun P => ?_⟩
    · rw [(check_protocol_frame s s1 w h1 Peer.fms).2.1, hstop]
    · have hf := check_protocol_frame s s1 w h1 P
      exact ⟨hf.2.2.2.1, hf.2.2.2.2.1, hf.2.2.2.2.2.1, hf.2.2.2.2.2.2, hf.2.2.1⟩
  · simp [run_event_loop, check_protocol_null s w hnull.1 hnull.2]

/-- The stopped engine after `started_state`, ticking under the same and under
a swapped protocol. -/
theorem stopped_tick_is_noop_witness :
    (Events_Close started_state).running = 0 ∧
    run_event_loop (Events_Close started_state) (demo_world 1000) =
      some (Events_Close started_state, []) ∧
    ((∀ s0 : State, (Events_Close s0).running = 0) ∧
    (((swap_world 1000).current ≠ none ∨ (Events_Close started_state).protocol = none) →
      ∃ s1, run_event_loop (Events_Close started_state) (swap_world 1000) = some (s1, []) ∧
        s1.running = 0 ∧
        ∀ P : Peer,
          (s1.send_timer P).remaining = ((Events_Close started_state).send_timer P).remaining ∧
          (s1.send_timer P).expired = ((Events_Close started_state).send_timer P).expired ∧
          (s1.recv_timer P).remaining = ((Events_Close started_state).recv_timer P).remaining ∧
          (s1.recv_timer P).expired = ((Events_Close started_state).recv_timer P).expired ∧
          s1.read_flag P = (Events_Close started_state).read_flag P) ∧
    (((Events_Close started_state).protocol ≠ none ∧ (swap_world 1000).current = none) →
      run_event_loop (Events_Close started_state) (swap_world 1000) = none)) :=
  ⟨rfl, by decide, stopped_tick_is_noop (Events_Close started_state) (swap_world 1000) rfl⟩

/-! ## C11: a stopped engine whose protocol is set to null -/

/-- C12 (code defect): `DS_PollEvent` returns 0 and leaves its argument as it
was whatever is pending, also when at least one event is pending, although its
own comment promises 1 in that case. -/
theorem DS_PollEvent_always_zero (pending : List DS_Event) (info : DS_Event) :
    DS_PollEvent pending info = (0, info) ∧ DS_PollEvent [⟨7⟩] ⟨0⟩ = (0, ⟨0⟩) :=
  ⟨rfl, rfl⟩

/-! ## Feeding a watchdog whose interval is configured -/

/-- Feeding works while the watchdog interval is the configured one: in a tick
of a running engine with a protocol present and P's watchdog interval, once
`check_protocol` is done, at 50 * I, if P's parser returns true and the tick
elapses less than 50 * I (so I is positive), the watchdog is reset and then
advanced: it ends the tick not expired, whatever it was before, with remaining
50 * I minus the elapsed time, and P's hook is not invoked in the tick. -/
theorem fed_watchdog_stays_alive (s s0 : State) (w : World) (P : Peer) (I : Int)
    (hrun : s.running ≠ 0) (hcur : w.current ≠ none)
    (h0 : check_protocol s w = some s0) (hT : (s0.recv_timer P).time = 50 * I)
    (hparse : w.packet P ≠ 0) (he : (w.elapsed : Int) < 50 * I) :
    ∃ s1 calls, run_event_loop s w = some (s1, calls) ∧
      s1.recv_timer P = DS_TimerUpdate (DS_TimerReset (s0.recv_timer P)) w.elapsed ∧
      (s1.recv_timer P).expired = 0 ∧
      (s1.recv_timer P).remaining = 50 * I - w.elapsed ∧
      calls.count (Call.watchdog_expired P) = 0 ∧ Call.watchdog_expired P ∉ calls := by
  have hp : (send_data s0 w).1.protocol ≠ none := by
    rw [(send_data_frame s0 w P).2.2.1, (check_protocol_frame s s0 w h0 P).1]
    exact hcur
  have hflag : (recv_data (send_data s0 w).1 w).1.read_flag P = w.packet P := by
    rw [(recv_data_frame _ w P).2.2.2.2, if_neg hp]
  have htimer : (update_watchdogs (recv_data (send_data s0 w).1 w).1 w).1.recv_timer P =
      ⟨50 * I, if 50 * I - (w.elapsed : Nat) ≤ 0 then 1 else 0,
        50 * I - (w.elapsed : Nat)⟩ := by
    rw [update_watchdogs_recv_timer, hflag, watch_step_fed _ _ _ hparse,
      (recv_data_frame _ w P).1, (send_data_frame s0 w P).1, hT]
  have hlive : ¬ (50 * I - (w.elapsed : Int) ≤ 0) := by omega
  have hcount : ((send_data s0 w).2 ++ (recv_data (send_data s0 w).1 w).2 ++
      (update_watchdogs (recv_data (send_data s0 w).1 w).1 w).2).count
        (Call.watchdog_expired P) = 0 := by
    rw [List.count_append, List.count_append, send_data_no_hook, recv_data_no_hook,
      update_watchdogs_count, ← update_watchdogs_recv_timer, htimer]
    simp [hlive]
  refine ⟨_, _, run_event_loop_running s s0 w h0 hrun, ?_, ?_, ?_, hcount,
    List.count_eq_zero.mp hcount⟩
  · rw [htimer, ← hT]
    simp [DS_TimerUpdate, DS_TimerReset]
  · rw [htimer]
    simp [hlive]
  · rw [htimer]

/-- The robot watchdog of `started_state`, expired before the tick, is fed in a
tick of 600 ms and ends it alive. -/
theorem fed_watchdog_stays_alive_witness :
    started_state.running ≠ 0 ∧ (feed_world 600).current ≠ none ∧
    check_protocol started_state (feed_world 600) = some started_state ∧
    (started_state.recv_timer Peer.robot).time = 50 * 20 ∧
    (started_state.recv_timer Peer.robot).expired ≠ 0 ∧
    (feed_world 600).packet Peer.robot ≠ 0 ∧
    (((feed_world 600).elapsed : Nat) : Int) < 50 * 20 ∧
    ∃ s1 calls, run_event_loop started_state (feed_world 600) = some (s1, calls) ∧
      s1.recv_timer Peer.robot =
        DS_TimerUpdate (DS_TimerReset (started_state.recv_timer Peer.robot))
          (feed_world 600).elapsed ∧
      (s1.recv_timer Peer.robot).expired = 0 ∧
      (s1.recv_timer Peer.robot).remaining = 50 * 20 - (feed_world 600).elapsed ∧
      calls.count (Call.watchdog_expired Peer.robot) = 0 ∧
      Call.watchdog_expired Peer.robot ∉ calls :=
  ⟨by decide, by decide, by decide, by decide, by decide, by decide, by decide,
    fed_watchdog_stays_alive started_state started_state (feed_world 600) Peer.robot 20
      (by decide) (by decide) (by decide) (by decide) (by decide) (by decide)⟩

/-! ## C13: feeding a watchdog after a restart -/

/-- C13 (code defect): after stop() and start() under the unchanged protocol
(robot interval 20) the robot watchdog has interval 0, so a tick of 5 ms, far
below 50 * 20, in which the robot parser returns true resets the watchdog to
remaining 0 and advances it to -5: it ends the tick expired and
`CFG_RobotWatchdogExpired` is invoked. -/
theorem fed_watchdog_expires_after_restart :
    (Events_Init State.initial (demo_world 0)).map Prod.fst = some started_state ∧
    (feed_world 5).packet Peer.robot ≠ 0 ∧
    (((feed_world 5).elapsed : Nat) : Int) < 50 * ((feed_world 5).deref 1).interval Peer.robot ∧
    ((Events_Init (Events_Close started_state) (demo_world 5)).bind
      (fun r => run_event_loop r.1 (feed_world 5))).map
      (fun r => (r.1.running, r.1.protocol, r.1.recv_timer Peer.robot,
        r.2.count (Call.watchdog_expired Peer.robot))) = some (1, some 1, ⟨0, 1, -5⟩, 1) := by
  decide

end LibDS
